import Mathlib

/-!
Verification of the Plopdiction feature-engineering and evaluation pipeline.

Each section shallowly embeds one Python module of the repository:
* `src/evaluation/ats_metrics.py`   — ATS outcome grading and summarising
* `src/models/injury_adjustment.py` — injury point penalties
* `src/evaluation/game_narratives.py` — play-by-play narrative scan
* `src/models/matchup_model.py`     — recency-weighted team statistics
* `src/ml/build_dataset.py`         — feature-vector assembly

Python `float` values that only ever undergo field arithmetic and
comparisons are modelled as `ℚ`; the recency weights use a real-valued
exponent `0.5 ** (games_ago / half_life)` and are modelled over `ℝ`.
Python `datetime.date` values are modelled as `Int` ordinal days (only
ordering and day differences are used).  Functions that can return `None`
or raise return `Option` / an explicit error constructor.
-/

namespace Plopdiction

/-! ### ats_metrics.py -/

/-- `EDGE_THRESHOLD = 3.0` from `ats_metrics.py`. -/
def EDGE_THRESHOLD : ℚ := 3

/-- The dict returned by `compute_ats_metrics`. -/
structure AtsMetrics where
  away_margin : ℚ
  pred_away_margin : ℚ
  line : ℚ
  actual_diff : ℚ
  pred_diff : ℚ
  result : String
  edge : ℚ
  edge_opportunity : Bool
  edge_pick : String
  edge_hit : Option Bool
  model_error : ℚ
  market_error : ℚ
  deriving DecidableEq, Repr

/-- `compute_ats_metrics(away_margin, pred_away_margin, line)`
(`src/evaluation/ats_metrics.py`, lines 9-38). -/
def compute_ats_metrics (away_margin pred_away_margin line : ℚ) : AtsMetrics :=
  let actual_diff := away_margin + line
  let pred_diff := pred_away_margin + line
  let result :=
    if actual_diff = 0 then "PUSH"
    else if (actual_diff > 0) ↔ (pred_diff > 0) then "W" else "L"
  let edge := pred_diff
  let edge_opportunity := |edge| ≥ EDGE_THRESHOLD
  let edge_pick := if edge > 0 then "AWAY" else if edge < 0 then "HOME" else "PUSH"
  let edge_hit : Option Bool :=
    if actual_diff ≠ 0 ∧ edge_pick ≠ "PUSH" then
      some (decide ((edge > 0) ↔ (actual_diff > 0)))
    else none
  { away_margin := away_margin
    pred_away_margin := pred_away_margin
    line := line
    actual_diff := actual_diff
    pred_diff := pred_diff
    result := result
    edge := edge
    edge_opportunity := edge_opportunity
    edge_pick := edge_pick
    edge_hit := edge_hit
    model_error := |pred_away_margin - away_margin|
    market_error := |line - away_margin| }

/-- The sign function used by the specification's classification sentence
(`sign(actual_diff) == sign(pred_diff)`): `1` on positives, `-1` on
negatives, `0` at zero.  Spec-side definition, for comparison only. -/
def qsign (x : ℚ) : Int := if x > 0 then 1 else if x < 0 then -1 else 0

/-- Accumulator of the `for r in rows` loop in `summarize_ats_metrics`
(`src/evaluation/ats_metrics.py`, lines 41-64). -/
structure AtsAcc where
  wins : ℕ
  losses : ℕ
  pushes : ℕ
  edge_opps : ℕ
  edge_bets : ℕ
  edge_wins : ℕ
  model_errors : List ℚ
  market_errors : List ℚ
  deriving DecidableEq, Repr

/-- One iteration of the `summarize_ats_metrics` loop.  Any `result`
other than "W" or "L" is counted as a push; `edge_hit` is truthy only
when it is `True` (Python `if r.get("edge_hit")`). -/
def summarize_step (acc : AtsAcc) (r : AtsMetrics) : AtsAcc :=
  let acc :=
    if r.result = "W" then { acc with wins := acc.wins + 1 }
    else if r.result = "L" then { acc with losses := acc.losses + 1 }
    else { acc with pushes := acc.pushes + 1 }
  let acc := { acc with
    model_errors := acc.model_errors ++ [r.model_error]
    market_errors := acc.market_errors ++ [r.market_error] }
  if r.edge_opportunity then
    let acc := { acc with edge_opps := acc.edge_opps + 1 }
    if r.result ≠ "PUSH" then
      let acc := { acc with edge_bets := acc.edge_bets + 1 }
      if r.edge_hit = some true then { acc with edge_wins := acc.edge_wins + 1 }
      else acc
    else acc
  else acc

/-- The summary dict returned by `summarize_ats_metrics`. -/
structure AtsSummary where
  total_games : ℕ
  graded_games : ℕ
  wins : ℕ
  losses : ℕ
  pushes : ℕ
  ats_accuracy : Option ℚ
  edge_opportunities : ℕ
  edge_bets : ℕ
  edge_wins : ℕ
  edge_hit_rate : Option ℚ
  model_mae : Option ℚ
  market_mae : Option ℚ

/-- `summarize_ats_metrics(rows)` (`src/evaluation/ats_metrics.py`,
lines 41-86). -/
def summarize_ats_metrics (rows : List AtsMetrics) : AtsSummary :=
  let acc := rows.foldl summarize_step ⟨0, 0, 0, 0, 0, 0, [], []⟩
  let graded := acc.wins + acc.losses
  { total_games := graded + acc.pushes
    graded_games := graded
    wins := acc.wins
    losses := acc.losses
    pushes := acc.pushes
    ats_accuracy := if graded = 0 then none else some ((acc.wins : ℚ) / graded)
    edge_opportunities := acc.edge_opps
    edge_bets := acc.edge_bets
    edge_wins := acc.edge_wins
    edge_hit_rate :=
      if acc.edge_bets = 0 then none else some ((acc.edge_wins : ℚ) / acc.edge_bets)
    model_mae :=
      if acc.model_errors.isEmpty then none
      else some (acc.model_errors.sum / acc.model_errors.length)
    market_mae :=
      if acc.market_errors.isEmpty then none
      else some (acc.market_errors.sum / acc.market_errors.length) }

/-! ### Shared string helpers

Python's `str.lower()`, `str.split(":")` and `int(...)` are modelled by
structural character-level functions so that concrete instances evaluate
inside the kernel. -/

/-- ASCII lowercase of one character (`str.lower` on the alphabets the
repository's status strings use). -/
def lower_char (c : Char) : Char :=
  if 'A' ≤ c ∧ c ≤ 'Z' then Char.ofNat (c.toNat + 32) else c

/-- `str.lower()` over a whole string. -/
def lower_string (s : String) : String := String.mk (s.data.map lower_char)

/-- `str.split(":")` over a character list. -/
def split_on_colon : List Char → List (List Char)
  | [] => [[]]
  | c :: rest =>
    let r := split_on_colon rest
    if c = ':' then [] :: r
    else
      match r with
      | [] => [[c]]
      | g :: gs => (c :: g) :: gs

/-- Python `int(...)` on a digit string: fails on the empty string or on
any non-digit character. -/
def parse_nat (cs : List Char) : Option ℕ :=
  if cs = [] then none
  else
    cs.foldl
      (fun acc c =>
        match acc with
        | none => none
        | some n => if c.isDigit then some (n * 10 + (c.toNat - '0'.toNat)) else none)
      (some 0)

/-- Python `int(...)` with an optional sign. -/
def parse_int (cs : List Char) : Option Int :=
  match cs with
  | '-' :: rest => (parse_nat rest).map (fun n => -(n : Int))
  | '+' :: rest => (parse_nat rest).map (fun n => (n : Int))
  | _ => (parse_nat cs).map (fun n => (n : Int))

/-- A graded win row, as a literal record. -/
def sampleWinRow : AtsMetrics :=
  { away_margin := 5, pred_away_margin := 3, line := -2, actual_diff := 3,
    pred_diff := 1, result := "W", edge := 1, edge_opportunity := false,
    edge_pick := "AWAY", edge_hit := some true, model_error := 2, market_error := 7 }

/-- A graded loss row, as a literal record. -/
def sampleLossRow : AtsMetrics :=
  { away_margin := -5, pred_away_margin := 2, line := 3.5, actual_diff := -1.5,
    pred_diff := 5.5, result := "L", edge := 5.5, edge_opportunity := true,
    edge_pick := "AWAY", edge_hit := some false, model_error := 7, market_error := 8.5 }

/-- A push row, as a literal record. -/
def samplePushRow : AtsMetrics :=
  { away_margin := 2, pred_away_margin := 1, line := -2, actual_diff := 0,
    pred_diff := -1, result := "PUSH", edge := -1, edge_opportunity := false,
    edge_pick := "HOME", edge_hit := none, model_error := 1, market_error := 4 }

/-! ### injury_adjustment.py -/

/-- `POINTS_PER_PPG = 0.15` from `injury_adjustment.py`. -/
def POINTS_PER_PPG : ℚ := 0.15

/-- `RANK_MULTIPLIER.get(rank, 1.0)`: the boost table for the team's top
five scorers, defaulting to `1.0` outside ranks 1-5. -/
def RANK_MULTIPLIER (rank : ℕ) : ℚ :=
  if rank = 1 then 1.8
  else if rank = 2 then 1.5
  else if rank = 3 then 1.3
  else if rank = 4 then 1.15
  else if rank = 5 then 1.1
  else 1

/-- `ppg_multiplier(ppg)` (`src/models/injury_adjustment.py`, lines 31-40). -/
def ppg_multiplier (ppg : ℚ) : ℚ :=
  if ppg ≥ 25 then 1.8
  else if ppg ≥ 20 then 1.5
  else if ppg ≥ 15 then 1.3
  else if ppg ≥ 10 then 1.15
  else 1

/-- One injury-report entry for a player: status string, resolved
points-per-game (`None` when unknown), and 1-based scoring rank on the
team (`None` when unknown). -/
structure InjuryEntry where
  status : String
  ppg : Option ℚ
  ppg_rank : Option ℕ
  deriving DecidableEq, Repr

/-- The per-team penalty loop of `build_injury_adjustments`
(`src/models/injury_adjustment.py`, lines 61-75): only status "out"
players with a known PPG contribute `ppg * 0.15 * mult`, where `mult`
comes from `RANK_MULTIPLIER` for a truthy rank and from `ppg_multiplier`
otherwise. -/
def penalty_step (penalty : ℚ) (inj : InjuryEntry) : ℚ :=
  if lower_string inj.status ≠ "out" then penalty
  else
    match inj.ppg with
    | none => penalty
    | some ppg =>
      let base := ppg * POINTS_PER_PPG
      let mult :=
        match inj.ppg_rank with
        | some rank => if rank ≠ 0 then RANK_MULTIPLIER rank else ppg_multiplier ppg
        | none => ppg_multiplier ppg
      penalty + base * mult

/-- The accumulated team penalty (`penalty` variable of the loop). -/
def team_penalty (plist : List InjuryEntry) : ℚ :=
  plist.foldl penalty_step 0

/-- The `adjustments` dict built by `build_injury_adjustments`: a team is
present only when its penalty is strictly positive, and `apply` reads it
with `.get(team, 0.0)`. -/
def adjustments_lookup (injuries : List (String × List InjuryEntry)) (team : String) : ℚ :=
  match injuries.find? (fun p => p.1 = team) with
  | some p => let penalty := team_penalty p.2; if penalty > 0 then penalty else 0
  | none => 0

/-- `apply_injury_adjustment(away_team, home_team, pred_away_margin,
adjustments)` (`src/models/injury_adjustment.py`, lines 161-165). -/
def apply_injury_adjustment (away_team home_team : String) (pred_away_margin : ℚ)
    (adjustments : String → ℚ) : ℚ :=
  pred_away_margin - adjustments away_team + adjustments home_team

/-- The claim's team-penalty formula, written from the spec's words:
sum over status-"out" players of `ppg × 0.15 × multiplier`, rank-table
multiplier when the rank is known and PPG-bucket multiplier otherwise. -/
def specPlayerPenalty (inj : InjuryEntry) : ℚ :=
  if lower_string inj.status = "out" then
    match inj.ppg with
    | some ppg =>
      ppg * POINTS_PER_PPG *
        (match inj.ppg_rank with
         | some rank => RANK_MULTIPLIER rank
         | none => ppg_multiplier ppg)
    | none => 0
  else 0

/-- Spec-side team penalty: the sum of the per-player penalties. -/
def specTeamPenalty (plist : List InjuryEntry) : ℚ :=
  (plist.map specPlayerPenalty).sum

/-- The injury list of one team in the report (`{}` lookup semantics:
missing team means no entries). -/
def team_injuries (injuries : List (String × List InjuryEntry)) (team : String) :
    List InjuryEntry :=
  match injuries.find? (fun p => p.1 = team) with
  | some p => p.2
  | none => []

/-- A concrete two-team injury report: one "out" star with rank 1, one
day-to-day player (ignored), and one rankless "out" role player. -/
def sampleInjuries : List (String × List InjuryEntry) :=
  [("BOS", [⟨"Out", some 25, some 1⟩, ⟨"day-to-day", some 30, none⟩]),
   ("NYK", [⟨"out", some 12, none⟩])]

/-! ### game_narratives.py -/

/-- `CLUTCH_SECONDS = 5 * 60` from `game_narratives.py`. -/
def CLUTCH_SECONDS : Int := 5 * 60

/-- `BLOWN_LEAD_THRESHOLD = 10` from `game_narratives.py`. -/
def BLOWN_LEAD_THRESHOLD : Int := 10

/-- `_parse_clock(clock)`: parse "MM:SS" into seconds, `None` on any
malformed string (missing colon, extra fields, non-integer pieces). -/
def parse_clock (clock : String) : Option Int :=
  match split_on_colon clock.data with
  | [mins, secs] =>
    match parse_int mins, parse_int secs with
    | some m, some s => some (m * 60 + s)
    | _, _ => none
  | _ => none

/-- One play-by-play event: cumulative scores (`None` when missing or
non-numeric) and the game-clock string. -/
structure PbpEvent where
  home_points : Option Int
  away_points : Option Int
  clock : String
  deriving DecidableEq, Repr

/-- One period of play-by-play: its type ("quarter"/"overtime"), number
and event sequence. -/
structure PbpPeriod where
  type : String
  number : Int
  events : List PbpEvent
  deriving DecidableEq, Repr

/-- A raw completed-game record as consumed by `compute_narrative_stats`:
status, parsed schedule date, display names as produced by
`_extract_game_meta`, final points (`int(... or 0)` defaults applied),
and the play-by-play periods. -/
structure PbpGame where
  status : String
  scheduled : Option Int
  home_name : String
  away_name : String
  home_points : Int
  away_points : Int
  periods : List PbpPeriod
  deriving DecidableEq, Repr

/-- `status in {"closed", "complete", "completed", "final"}` after
lowercasing, the completed-game gate shared by the history builder,
narrative extractor and dataset builder. -/
def statusFinal (status : String) : Bool :=
  ["closed", "complete", "completed", "final"].contains (lower_string status)

/-- Mutable locals of the scanning loop in `compute_narrative_stats`. -/
structure NarrScan where
  max_home_lead : Int
  max_away_lead : Int
  clutch_home_points : Int
  clutch_away_points : Int
  last_home : Int
  last_away : Int
  deriving DecidableEq, Repr

/-- The guard of the clutch accumulation in `compute_narrative_stats`
(`game_narratives.py`, lines 109-111): the event's period must be the
regulation fourth quarter and its parsed clock at most `CLUTCH_SECONDS`;
an unparseable clock never qualifies. -/
def clutch_window (period : PbpPeriod) (evt : PbpEvent) : Bool :=
  if period.type = "quarter" ∧ period.number = 4 then
    match parse_clock evt.clock with
    | some seconds => seconds ≤ CLUTCH_SECONDS
    | none => false
  else false

/-- One iteration of the inner event loop of `compute_narrative_stats`
(`src/evaluation/game_narratives.py`, lines 91-118): events missing a
score are skipped; the running max leads update on every scored event;
clutch totals gain the score increment only when `clutch_window` holds
and the corresponding cumulative score increased; `last_home`/`last_away`
are updated at the end of every scored iteration. -/
def scan_event (period : PbpPeriod) (s : NarrScan) (evt : PbpEvent) : NarrScan :=
  match evt.home_points, evt.away_points with
  | some home_pts, some away_pts =>
    let lead := home_pts - away_pts
    { max_home_lead := if lead > s.max_home_lead then lead else s.max_home_lead
      max_away_lead := if -lead > s.max_away_lead then -lead else s.max_away_lead
      clutch_home_points :=
        if clutch_window period evt ∧ home_pts > s.last_home
        then s.clutch_home_points + (home_pts - s.last_home)
        else s.clutch_home_points
      clutch_away_points :=
        if clutch_window period evt ∧ away_pts > s.last_away
        then s.clutch_away_points + (away_pts - s.last_away)
        else s.clutch_away_points
      last_home := home_pts
      last_away := away_pts }
  | _, _ => s

/-- Scan all events of one period (an empty event list is a no-op, as in
the Python `if not events: continue`). -/
def scan_period (s : NarrScan) (period : PbpPeriod) : NarrScan :=
  period.events.foldl (scan_event period) s

/-- The full play-by-play scan over every period, from zeroed locals. -/
def scan_game (periods : List PbpPeriod) : NarrScan :=
  periods.foldl scan_period ⟨0, 0, 0, 0, 0, 0⟩

/-- The narrative dict produced for a completed game. -/
structure Narrative where
  game_date : Int
  home_team : String
  away_team : String
  home_points : Int
  away_points : Int
  max_home_lead : Int
  max_away_lead : Int
  blown_lead_team : Option String
  blown_lead_side : Option String
  clutch_home_points : Int
  clutch_away_points : Int
  clutch_margin : Int
  deriving DecidableEq, Repr

/-- The narrative record built after the scan
(`src/evaluation/game_narratives.py`, lines 120-143): the winner is read
from final scores, the first `if` flags the home side, the second `if`
(evaluated afterwards, hence taking precedence) flags the away side. -/
def mk_narrative (g : PbpGame) (game_date : Int) : Narrative :=
  let s := scan_game g.periods
  let final_margin := g.home_points - g.away_points
  let winner : Option String :=
    if final_margin > 0 then some g.home_name
    else if final_margin < 0 then some g.away_name
    else none
  let blown_after_home : Option String :=
    if s.max_home_lead ≥ BLOWN_LEAD_THRESHOLD ∧ winner = some g.away_name
    then some g.home_name else none
  let blown_lead_team : Option String :=
    if s.max_away_lead ≥ BLOWN_LEAD_THRESHOLD ∧ winner = some g.home_name
    then some g.away_name else blown_after_home
  let blown_lead_side : Option String :=
    match blown_lead_team with
    | some t =>
      if t = g.home_name then some "home"
      else if t = g.away_name then some "away" else none
    | none => none
  { game_date := game_date
    home_team := g.home_name
    away_team := g.away_name
    home_points := g.home_points
    away_points := g.away_points
    max_home_lead := s.max_home_lead
    max_away_lead := s.max_away_lead
    blown_lead_team := blown_lead_team
    blown_lead_side := blown_lead_side
    clutch_home_points := s.clutch_home_points
    clutch_away_points := s.clutch_away_points
    clutch_margin := s.clutch_home_points - s.clutch_away_points }

/-- `compute_narrative_stats(game)` (`src/evaluation/game_narratives.py`,
lines 65-143): `None` for non-final status, unparseable date or missing
play-by-play. -/
def compute_narrative_stats (g : PbpGame) : Option Narrative :=
  if statusFinal g.status then
    match g.scheduled with
    | none => none
    | some game_date =>
      if g.periods.isEmpty then none
      else some (mk_narrative g game_date)
  else none

/-- The home lead at an event, when the event carries both scores.  -/
def eventLead (evt : PbpEvent) : Option Int :=
  match evt.home_points, evt.away_points with
  | some home_pts, some away_pts => some (home_pts - away_pts)
  | _, _ => none

/-- All scored-event leads of one period, in order. -/
def periodLeads (period : PbpPeriod) : List Int :=
  period.events.filterMap eventLead

/-- All scored-event leads of the whole game, in order. -/
def allLeads : List PbpPeriod → List Int
  | [] => []
  | p :: rest => periodLeads p ++ allLeads rest

/-- A degenerate completed game whose two display names collide (both
empty, as produced by `_extract_game_meta` when `market`/`name` are
missing): home led by 12 and won. -/
def collisionGame : PbpGame :=
  { status := "closed", scheduled := some 100, home_name := "", away_name := "",
    home_points := 100, away_points := 90,
    periods := [⟨"quarter", 1, [⟨some 12, some 0, "5:00"⟩]⟩] }

/-- A completed game where the home side led by 15 but the away side came
back and won 100-95. -/
def comebackGame : PbpGame :=
  { status := "closed", scheduled := some 200, home_name := "HOME", away_name := "AWAY",
    home_points := 95, away_points := 100,
    periods := [⟨"quarter", 1, [⟨some 15, some 0, "10:00"⟩]⟩,
                ⟨"quarter", 4, [⟨some 95, some 100, "0:30"⟩]⟩] }

/-- The narrative computed for `comebackGame`. -/
def comebackNarrative : Narrative :=
  { game_date := 200, home_team := "HOME", away_team := "AWAY", home_points := 95,
    away_points := 100, max_home_lead := 15, max_away_lead := 5,
    blown_lead_team := some "HOME", blown_lead_side := some "home",
    clutch_home_points := 80, clutch_away_points := 100, clutch_margin := -20 }

/-- The mirror comeback: the away side led by 15 but the home side came
back and won 100-95. -/
def mirrorComebackGame : PbpGame :=
  { status := "closed", scheduled := some 300, home_name := "HOME", away_name := "AWAY",
    home_points := 100, away_points := 95,
    periods := [⟨"quarter", 1, [⟨some 0, some 15, "9:00"⟩]⟩,
                ⟨"quarter", 4, [⟨some 100, some 95, "1:00"⟩]⟩] }

/-- The narrative computed for `mirrorComebackGame`. -/
def mirrorComebackNarrative : Narrative :=
  { game_date := 300, home_team := "HOME", away_team := "AWAY", home_points := 100,
    away_points := 95, max_home_lead := 5, max_away_lead := 15,
    blown_lead_team := some "AWAY", blown_lead_side := some "away",
    clutch_home_points := 100, clutch_away_points := 80, clutch_margin := 20 }

/-- A completed game with distinct names where home led by 12 and lost. -/
def blownLeadGame : PbpGame :=
  { status := "closed", scheduled := some 100, home_name := "H", away_name := "A",
    home_points := 90, away_points := 100,
    periods := [⟨"quarter", 1, [⟨some 12, some 0, "6:00"⟩]⟩] }

/-- The narrative computed for `blownLeadGame`. -/
def blownLeadNarrative : Narrative :=
  { game_date := 100, home_team := "H", away_team := "A", home_points := 90,
    away_points := 100, max_home_lead := 12, max_away_lead := 0,
    blown_lead_team := some "H", blown_lead_side := some "home",
    clutch_home_points := 0, clutch_away_points := 0, clutch_margin := 0 }

/-! ### matchup_model.py -/

/-- `GameResult` (`src/models/matchup_model.py`, lines 23-34); dates are
ordinal days. -/
structure GameResult where
  game_id : String
  game_date : Int
  is_home : Bool
  points_for : Int
  points_against : Int
  opponent_id : String
  deriving DecidableEq, Repr

/-- The derived `margin` property of a `GameResult`. -/
def GameResult.margin (g : GameResult) : Int := g.points_for - g.points_against

/-- The recency weight `0.5 ** (games_ago / half_life_games)` of
`weighted_stats` (`src/models/matchup_model.py`, line 173). -/
noncomputable def gameWeight (half_life_games : ℝ) (games_ago : ℕ) : ℝ :=
  (0.5 : ℝ) ^ ((games_ago : ℝ) / half_life_games)

/-- `weighted_stats(games, half_life_games)` (`matchup_model.py`, lines
159-189): weight-normalised win rate, margin, points for and against over
the whole sequence; the game at index `idx` of an `n`-game list is
`n - 1 - idx` games before the most recent one. -/
noncomputable def weighted_stats (games : List GameResult) (half_life_games : ℝ) :
    ℝ × ℝ × ℝ × ℝ :=
  if games.isEmpty then (0, 0, 0, 0)
  else
    let n := games.length
    let w : ℕ → ℝ := fun idx => gameWeight half_life_games (n - 1 - idx)
    let total := ((List.range n).map w).sum
    let weighted_wins :=
      (games.enum.map (fun p => w p.1 * (if p.2.margin > 0 then (1 : ℝ) else 0))).sum
    let weighted_margin := (games.enum.map (fun p => w p.1 * (p.2.margin : ℝ))).sum
    let weighted_for := (games.enum.map (fun p => w p.1 * (p.2.points_for : ℝ))).sum
    let weighted_against :=
      (games.enum.map (fun p => w p.1 * (p.2.points_against : ℝ))).sum
    if total = 0 then (0, 0, 0, 0)
    else (weighted_wins / total, weighted_margin / total,
          weighted_for / total, weighted_against / total)

/-- `TeamStats` (`matchup_model.py`, lines 37-48). -/
structure TeamStats where
  team_id : String
  name : String
  weighted_win_pct : ℝ
  weighted_margin : ℝ
  weighted_home_margin : ℝ
  weighted_away_margin : ℝ
  weighted_points_for : ℝ
  weighted_points_against : ℝ
  recent_10_win_pct : ℝ
  last_game_date : Option Int

/-- `compute_team_stats(team_id, games, name, half_life_games)`
(`matchup_model.py`, lines 192-223): home/away split margins fall back to
the overall weighted margin on an empty subsequence; the recent-10 win
rate is an unweighted rate over the last ten games. -/
noncomputable def compute_team_stats (team_id : String) (games : List GameResult)
    (name : String) (half_life_games : ℝ) : TeamStats :=
  let ws := weighted_stats games half_life_games
  let home_games := games.filter (fun g => g.is_home)
  let away_games := games.filter (fun g => !g.is_home)
  let home_margin :=
    if home_games.isEmpty then ws.2.1
    else (weighted_stats home_games half_life_games).2.1
  let away_margin :=
    if away_games.isEmpty then ws.2.1
    else (weighted_stats away_games half_life_games).2.1
  let recent := games.drop (games.length - 10)
  let recent_10 :=
    if recent.isEmpty then (0 : ℝ)
    else ((recent.filter (fun g => g.margin > 0)).length : ℝ) / recent.length
  { team_id := team_id
    name := name
    weighted_win_pct := ws.1
    weighted_margin := ws.2.1
    weighted_home_margin := home_margin
    weighted_away_margin := away_margin
    weighted_points_for := ws.2.2.1
    weighted_points_against := ws.2.2.2
    recent_10_win_pct := recent_10
    last_game_date := games.getLast?.map (fun g => g.game_date) }

/-! ### build_dataset.py -/

/-- One per-team narrative-history entry as built by
`build_team_narrative_history` (`src/ml/build_dataset.py`, lines
111-122): date, signed clutch margin, own max lead and a blown-lead
flag. -/
structure NarrativeEntry where
  game_date : Int
  clutch_margin : Int
  max_lead : Int
  blew_lead : Bool
  deriving DecidableEq, Repr

/-- The fields of the raw game dict that `build_features_for_game` reads:
the parsed schedule date and each side's id and display name (as returned
by `parse_game_date` / `parse_team_display`). -/
structure GameInfo where
  scheduled : Option Int
  home_id : String
  home_name : String
  away_id : String
  away_name : String
  deriving DecidableEq, Repr

/-- `recent_avg(games, n, attr)` (`build_dataset.py`, lines 72-77). -/
noncomputable def recent_avg (games : List GameResult) (n : ℕ) (attr : GameResult → Int) : ℝ :=
  if games.isEmpty then 0
  else
    let recent := if games.length ≥ n then games.drop (games.length - n) else games
    let values := recent.map (fun g => ((attr g : Int) : ℝ))
    if values.isEmpty then 0 else values.sum / values.length

/-- `recent_win_pct(games, n)` (`build_dataset.py`, lines 80-85). -/
noncomputable def recent_win_pct (games : List GameResult) (n : ℕ) : ℝ :=
  if games.isEmpty then 0
  else
    let recent := if games.length ≥ n then games.drop (games.length - n) else games
    if recent.isEmpty then 0
    else ((recent.filter (fun g => g.margin > 0)).length : ℝ) / recent.length

/-- `head_to_head_stats(home_games, away_id)` (`build_dataset.py`, lines
130-136): average margin, win rate and count over the home team's prior
games against this opponent. -/
noncomputable def head_to_head_stats (home_games : List GameResult) (away_id : String) :
    ℝ × ℝ × ℕ :=
  let matchups := home_games.filter (fun g => g.opponent_id = away_id)
  if matchups.isEmpty then (0, 0, 0)
  else
    ((matchups.map (fun g => (g.margin : ℝ))).sum / matchups.length,
     ((matchups.filter (fun g => g.margin > 0)).length : ℝ) / matchups.length,
     matchups.length)

/-- `recent_narrative_avg(entries, n, field)` (`build_dataset.py`, lines
200-205). -/
noncomputable def recent_narrative_avg (entries : List NarrativeEntry) (n : ℕ)
    (field : NarrativeEntry → Int) : ℝ :=
  if entries.isEmpty then 0
  else
    let recent := if entries.length ≥ n then entries.drop (entries.length - n) else entries
    let values := recent.map (fun e => ((field e : Int) : ℝ))
    if values.isEmpty then 0 else values.sum / values.length

/-- `recent_blown_rate(entries, n)` (`build_dataset.py`, lines 207-212). -/
noncomputable def recent_blown_rate (entries : List NarrativeEntry) (n : ℕ) : ℝ :=
  if entries.isEmpty then 0
  else
    let recent := if entries.length ≥ n then entries.drop (entries.length - n) else entries
    if recent.isEmpty then 0
    else ((recent.filter (fun e => e.blew_lead)).length : ℝ) / recent.length

/-- The fixed-schema feature dict of `build_features_for_game`
(`build_dataset.py`, lines 214-257). -/
structure FeatureVec where
  home_weighted_margin : ℝ
  away_weighted_margin : ℝ
  home_weighted_win_pct : ℝ
  away_weighted_win_pct : ℝ
  home_recent_10_win_pct : ℝ
  away_recent_10_win_pct : ℝ
  home_weighted_points_for : ℝ
  away_weighted_points_for : ℝ
  home_weighted_points_against : ℝ
  away_weighted_points_against : ℝ
  home_weighted_point_diff : ℝ
  away_weighted_point_diff : ℝ
  home_recent_margin_3 : ℝ
  home_recent_margin_5 : ℝ
  home_recent_margin_10 : ℝ
  away_recent_margin_3 : ℝ
  away_recent_margin_5 : ℝ
  away_recent_margin_10 : ℝ
  home_recent_win_pct_3 : ℝ
  home_recent_win_pct_5 : ℝ
  away_recent_win_pct_3 : ℝ
  away_recent_win_pct_5 : ℝ
  home_recent_points_for_5 : ℝ
  home_recent_points_against_5 : ℝ
  away_recent_points_for_5 : ℝ
  away_recent_points_against_5 : ℝ
  home_h2h_margin_avg : ℝ
  home_h2h_win_pct : ℝ
  h2h_games_played : ℝ
  rest_diff : ℝ
  home_b2b : ℝ
  away_b2b : ℝ
  home_games_played : ℝ
  away_games_played : ℝ
  market_spread : ℝ
  line_move : ℝ
  home_blown_rate_10 : ℝ
  away_blown_rate_10 : ℝ
  home_clutch_margin_10 : ℝ
  away_clutch_margin_10 : ℝ
  home_max_lead_10 : ℝ
  away_max_lead_10 : ℝ

/-- The outcome of one feature-build call: the `{}` sentinel, a Python
`TypeError` (raised by `market_spread - opening_spread` when the market
spread is `None` but an opening spread is supplied, line 250), or a
complete feature vector. -/
inductive BuildResult where
  | empty : BuildResult
  | err : BuildResult
  | ok : FeatureVec → BuildResult

/-- `history.get(team_id, [])` filtered to games strictly before the
query date (`build_dataset.py`, lines 156-157). -/
def filtered_games (history : String → List GameResult) (team_id : String)
    (game_date : Int) : List GameResult :=
  (history team_id).filter (fun g => g.game_date < game_date)

/-- `narrative_history.get(team_id, [])` filtered to entries strictly
before the query date (`build_dataset.py`, lines 196-198); an absent
narrative history yields `[]`. -/
def filtered_narr (narrative_history : Option (String → List NarrativeEntry))
    (team_id : String) (game_date : Int) : List NarrativeEntry :=
  match narrative_history with
  | some nh => (nh team_id).filter (fun e => e.game_date < game_date)
  | none => []

/-- The feature-dict construction of `build_features_for_game`
(`build_dataset.py`, lines 162-257), after the date and history gates:
stats of both sides, rest and back-to-back signals, head-to-head,
narrative aggregates, and the market passthrough fields.  The `err`
branch is the `TypeError` of line 250. -/
noncomputable def assemble_features (game : GameInfo) (game_date : Int)
    (home_games away_games : List GameResult) (half_life : ℝ)
    (market_spread opening_spread : Option ℝ)
    (home_narr away_narr : List NarrativeEntry) : BuildResult :=
  if opening_spread.isSome && market_spread.isNone then .err
  else
    let home_stats := compute_team_stats game.home_id home_games game.home_name half_life
    let away_stats := compute_team_stats game.away_id away_games game.away_name half_life
    let rest : ℝ × ℝ × ℝ :=
      match home_stats.last_game_date, away_stats.last_game_date with
      | some hd, some ad =>
        ((((game_date - hd) - (game_date - ad) : Int) : ℝ),
          (if game_date - hd = 0 then (1 : ℝ) else 0),
          (if game_date - ad = 0 then (1 : ℝ) else 0))
      | _, _ => (0, 0, 0)
    let h2h := head_to_head_stats home_games game.away_id
    .ok {
      home_weighted_margin := home_stats.weighted_home_margin
      away_weighted_margin := away_stats.weighted_away_margin
      home_weighted_win_pct := home_stats.weighted_win_pct
      away_weighted_win_pct := away_stats.weighted_win_pct
      home_recent_10_win_pct := home_stats.recent_10_win_pct
      away_recent_10_win_pct := away_stats.recent_10_win_pct
      home_weighted_points_for := home_stats.weighted_points_for
      away_weighted_points_for := away_stats.weighted_points_for
      home_weighted_points_against := home_stats.weighted_points_against
      away_weighted_points_against := away_stats.weighted_points_against
      home_weighted_point_diff :=
        home_stats.weighted_points_for - home_stats.weighted_points_against
      away_weighted_point_diff :=
        away_stats.weighted_points_for - away_stats.weighted_points_against
      home_recent_margin_3 := recent_avg home_games 3 GameResult.margin
      home_recent_margin_5 := recent_avg home_games 5 GameResult.margin
      home_recent_margin_10 := recent_avg home_games 10 GameResult.margin
      away_recent_margin_3 := recent_avg away_games 3 GameResult.margin
      away_recent_margin_5 := recent_avg away_games 5 GameResult.margin
      away_recent_margin_10 := recent_avg away_games 10 GameResult.margin
      home_recent_win_pct_3 := recent_win_pct home_games 3
      home_recent_win_pct_5 := recent_win_pct home_games 5
      away_recent_win_pct_3 := recent_win_pct away_games 3
      away_recent_win_pct_5 := recent_win_pct away_games 5
      home_recent_points_for_5 := recent_avg home_games 5 GameResult.points_for
      home_recent_points_against_5 := recent_avg home_games 5 GameResult.points_against
      away_recent_points_for_5 := recent_avg away_games 5 GameResult.points_for
      away_recent_points_against_5 := recent_avg away_games 5 GameResult.points_against
      home_h2h_margin_avg := h2h.1
      home_h2h_win_pct := h2h.2.1
      h2h_games_played := (h2h.2.2 : ℝ)
      rest_diff := rest.1
      home_b2b := rest.2.1
      away_b2b := rest.2.2
      home_games_played := (home_games.length : ℝ)
      away_games_played := (away_games.length : ℝ)
      market_spread := match market_spread with | some m => m | none => 0
      line_move :=
        match opening_spread, market_spread with
        | some o, some m => m - o
        | _, _ => 0
      home_blown_rate_10 := recent_blown_rate home_narr 10
      away_blown_rate_10 := recent_blown_rate away_narr 10
      home_clutch_margin_10 := recent_narrative_avg home_narr 10 NarrativeEntry.clutch_margin
      away_clutch_margin_10 := recent_narrative_avg away_narr 10 NarrativeEntry.clutch_margin
      home_max_lead_10 := recent_narrative_avg home_narr 10 NarrativeEntry.max_lead
      away_max_lead_10 := recent_narrative_avg away_narr 10 NarrativeEntry.max_lead }

/-- `build_features_for_game(game, history, half_life, market_spread,
opening_spread, narrative_history)` (`build_dataset.py`, lines 139-258):
`{}` for an unparseable date or when either side's filtered history is
empty, otherwise the assembled features. -/
noncomputable def build_features_for_game (game : GameInfo)
    (history : String → List GameResult) (half_life : ℝ)
    (market_spread opening_spread : Option ℝ)
    (narrative_history : Option (String → List NarrativeEntry)) : BuildResult :=
  match game.scheduled with
  | none => .empty
  | some game_date =>
    let home_games := filtered_games history game.home_id game_date
    let away_games := filtered_games history game.away_id game_date
    if home_games.isEmpty || away_games.isEmpty then .empty
    else
      assemble_features game game_date home_games away_games half_life
        market_spread opening_spread
        (filtered_narr narrative_history game.home_id game_date)
        (filtered_narr narrative_history game.away_id game_date)

/-- The fields of the raw game dict that the `build_dataset` loop reads
before calling `build_features_for_game`. -/
structure RawGame where
  info : GameInfo
  status : String
  home_points : Option Int
  away_points : Option Int
  deriving DecidableEq, Repr

/-- One emitted CSV row of `build_dataset` (identity columns plus the
feature dict). -/
structure DatasetRow where
  game_date : Int
  actual_margin : Int
  features : BuildResult

/-- The per-game body of the `build_dataset` loop (`build_dataset.py`,
lines 316-360): skip non-final games, games without both scores or a
parseable date, and matchups whose feature build returned the empty
sentinel; when a market spread is found for the game the features are
rebuilt with it. -/
noncomputable def dataset_row (game : RawGame) (history : String → List GameResult)
    (half_life : ℝ) (narrative_history : Option (String → List NarrativeEntry))
    (market_spread_lookup : Option ℝ) : Option DatasetRow :=
  if statusFinal game.status then
    match game.home_points, game.away_points with
    | some home_points, some away_points =>
      match game.info.scheduled with
      | none => none
      | some game_date =>
        match build_features_for_game game.info history half_life none none
            narrative_history with
        | .ok features =>
          some { game_date := game_date
                 actual_margin := home_points - away_points
                 features :=
                   match market_spread_lookup with
                   | some m =>
                     build_features_for_game game.info history half_life (some m) none
                       narrative_history
                   | none => .ok features }
        | _ => none
    | _, _ => none
  else none

/-- A prior home win for the home side of the sample matchup. -/
def sampleHomeGame : GameResult :=
  { game_id := "g1", game_date := 5, is_home := true, points_for := 100,
    points_against := 90, opponent_id := "A" }

/-- A prior away loss for the away side of the sample matchup. -/
def sampleAwayGame : GameResult :=
  { game_id := "g2", game_date := 6, is_home := false, points_for := 95,
    points_against := 99, opponent_id := "X" }

/-- A two-team history: "H" and "A" each have one game before date 10. -/
def sampleHistory : String → List GameResult := fun team =>
  if team = "H" then [sampleHomeGame]
  else if team = "A" then [sampleAwayGame]
  else []

/-- The sample matchup query at date 10. -/
def sampleGameInfo : GameInfo :=
  { scheduled := some 10, home_id := "H", home_name := "Home",
    away_id := "A", away_name := "Away" }

/-- A game dated exactly at the query date (the no-lookahead boundary). -/
def lateGame : GameResult :=
  { game_id := "g9", game_date := 10, is_home := true, points_for := 120,
    points_against := 80, opponent_id := "A" }

/-- The sample matchup query at date 0, before any recorded game. -/
def earlyGameInfo : GameInfo :=
  { scheduled := some 0, home_id := "H", home_name := "Home",
    away_id := "A", away_name := "Away" }

/-- The specified `line_move` passthrough: `market − opening` when the
opening spread is supplied, `0.0` when it is unknown. -/
def passthrough_line_move (os ms : Option ℝ) : ℝ :=
  match os, ms with
  | some o, some m => m - o
  | _, _ => 0

/-- The build outcome of the sample matchup with a market spread of 4 and
an opening spread of 3. -/
noncomputable def sampleOkBuild : BuildResult :=
  build_features_for_game sampleGameInfo sampleHistory 10 (some 4) (some 3) none

/-- The feature vector inside `sampleOkBuild`. -/
noncomputable def sampleFv : FeatureVec :=
  match sampleOkBuild with
  | .ok fv => fv
  | _ =>
    { home_weighted_margin := 0, away_weighted_margin := 0, home_weighted_win_pct := 0,
      away_weighted_win_pct := 0, home_recent_10_win_pct := 0, away_recent_10_win_pct := 0,
      home_weighted_points_for := 0, away_weighted_points_for := 0,
      home_weighted_points_against := 0, away_weighted_points_against := 0,
      home_weighted_point_diff := 0, away_weighted_point_diff := 0,
      home_recent_margin_3 := 0, home_recent_margin_5 := 0, home_recent_margin_10 := 0,
      away_recent_margin_3 := 0, away_recent_margin_5 := 0, away_recent_margin_10 := 0,
      home_recent_win_pct_3 := 0, home_recent_win_pct_5 := 0, away_recent_win_pct_3 := 0,
      away_recent_win_pct_5 := 0, home_recent_points_for_5 := 0,
      home_recent_points_against_5 := 0, away_recent_points_for_5 := 0,
      away_recent_points_against_5 := 0, home_h2h_margin_avg := 0, home_h2h_win_pct := 0,
      h2h_games_played := 0, rest_diff := 0, home_b2b := 0, away_b2b := 0,
      home_games_played := 0, away_games_played := 0, market_spread := 0, line_move := 0,
      home_blown_rate_10 := 0, away_blown_rate_10 := 0, home_clutch_margin_10 := 0,
      away_clutch_margin_10 := 0, home_max_lead_10 := 0, away_max_lead_10 := 0 }

/-- The `result` field of `compute_ats_metrics`, in closed form. -/
lemma compute_ats_metrics_result (A P L : ℚ) :
    (compute_ats_metrics A P L).result =
      if A + L = 0 then "PUSH"
      else if (A + L > 0) ↔ (P + L > 0) then "W" else "L" := rfl

/-- C1 counterexample: at `A = -1`, `P = 0`, `L = 0` we have
`actual_diff = -1 ≠ 0` and `sign(actual_diff) ≠ sign(pred_diff)`
(`-1` versus `0`), so the claimed sign rule demands LOSS, yet
`compute_ats_metrics` grades the bet "W". -/
theorem compute_ats_metrics_sign_spec_counterexample :
    (compute_ats_metrics (-1) 0 0).result = "W" ∧
    ((-1 : ℚ) + 0 ≠ 0) ∧
    qsign ((-1 : ℚ) + 0) ≠ qsign ((0 : ℚ) + 0) := by
  have h1 : ¬((-1 : ℚ) + 0 = 0) := by norm_num
  have h2 : ((-1 : ℚ) + 0 > 0) ↔ ((0 : ℚ) + 0 > 0) := by norm_num
  have h3 : qsign ((-1 : ℚ) + 0) = -1 := by
    simp only [qsign]
    norm_num
  have h4 : qsign ((0 : ℚ) + 0) = 0 := by
    simp only [qsign]
    norm_num
  refine ⟨?_, h1, ?_⟩
  · rw [compute_ats_metrics_result, if_neg h1, if_pos h2]
  · rw [h3, h4]
    decide

/-- C1 (amended): `compute_ats_metrics` assigns exactly one result from
{"W", "L", "PUSH"}; PUSH iff `A + L = 0`; otherwise WIN iff the booleans
`actual_diff > 0` and `pred_diff > 0` agree (a zero `pred_diff` counts as
the non-positive side), else LOSS. -/
theorem compute_ats_metrics_classification (A P L : ℚ) :
    ((compute_ats_metrics A P L).result = "PUSH" ↔ A + L = 0) ∧
    ((compute_ats_metrics A P L).result = "W" ∨
      (compute_ats_metrics A P L).result = "L" ∨
      (compute_ats_metrics A P L).result = "PUSH") ∧
    (A + L ≠ 0 →
      ((compute_ats_metrics A P L).result = "W" ↔ ((A + L > 0) ↔ (P + L > 0)))) ∧
    (A + L ≠ 0 →
      ((compute_ats_metrics A P L).result = "L" ↔ ¬((A + L > 0) ↔ (P + L > 0)))) := by
  have hWP : ("W" : String) ≠ "PUSH" := by decide
  have hLP : ("L" : String) ≠ "PUSH" := by decide
  have hWL : ("W" : String) ≠ "L" := by decide
  have hLW : ("L" : String) ≠ "W" := by decide
  rw [compute_ats_metrics_result]
  split_ifs with h1 h2 <;> refine ⟨?_, ?_, ?_, ?_⟩ <;> simp_all

/-- Witness for C1 at the spec's own scenario `A = -5`, `P = 2`, `L = 3.5`:
opposite signs, result LOSS. -/
theorem compute_ats_metrics_classification_witness :
    ((-5 : ℚ) + 3.5 ≠ 0) ∧
    ((compute_ats_metrics (-5) 2 3.5).result = "L" ↔
      ¬(((-5 : ℚ) + 3.5 > 0) ↔ ((2 : ℚ) + 3.5 > 0))) :=
  ⟨by norm_num,
   (compute_ats_metrics_classification (-5) 2 3.5).2.2.2 (by norm_num)⟩

/-- Each summarised row lands in exactly one of the win/loss/push buckets. -/
lemma summarize_step_partition (acc : AtsAcc) (r : AtsMetrics) :
    (summarize_step acc r).wins + (summarize_step acc r).losses +
      (summarize_step acc r).pushes =
    acc.wins + acc.losses + acc.pushes + 1 := by
  unfold summarize_step
  split_ifs <;> simp <;> omega

/-- The summarising fold adds exactly one bucket entry per row. -/
lemma foldl_summarize_partition (rows : List AtsMetrics) :
    ∀ acc : AtsAcc,
      (rows.foldl summarize_step acc).wins + (rows.foldl summarize_step acc).losses +
        (rows.foldl summarize_step acc).pushes =
      acc.wins + acc.losses + acc.pushes + rows.length := by
  induction rows with
  | nil => intro acc; simp
  | cons r rest ih =>
    intro acc
    simp only [List.foldl_cons, List.length_cons]
    rw [ih (summarize_step acc r), summarize_step_partition]
    omega

/-- C5: `summarize_ats_metrics` counts every input row in exactly one of
wins/losses/pushes, so `wins + losses + pushes = total_games = number of
rows`; `ats_accuracy` is `wins / (wins + losses)` when at least one game
is graded and `None` when none are; `edge_hit_rate` is `None` when there
are no edge bets. -/
theorem summarize_ats_metrics_partition (rows : List AtsMetrics) :
    (summarize_ats_metrics rows).wins + (summarize_ats_metrics rows).losses +
        (summarize_ats_metrics rows).pushes = rows.length ∧
    (summarize_ats_metrics rows).total_games = rows.length ∧
    ((summarize_ats_metrics rows).graded_games = 0 →
      (summarize_ats_metrics rows).ats_accuracy = none) ∧
    ((summarize_ats_metrics rows).graded_games ≠ 0 →
      (summarize_ats_metrics rows).ats_accuracy =
        some (((summarize_ats_metrics rows).wins : ℚ) /
          ((summarize_ats_metrics rows).graded_games : ℚ))) ∧
    ((summarize_ats_metrics rows).edge_bets = 0 →
      (summarize_ats_metrics rows).edge_hit_rate = none) := by
  have hp := foldl_summarize_partition rows ⟨0, 0, 0, 0, 0, 0, [], []⟩
  simp only [summarize_ats_metrics]
  refine ⟨by simpa using hp, by simpa using hp, fun h => if_pos h, fun h => ?_, fun h => if_pos h⟩
  rw [if_neg h]

/-- Witness for C5 on a three-row collection (one win, one loss, one push). -/
theorem summarize_ats_metrics_partition_witness :
    (summarize_ats_metrics [sampleWinRow, sampleLossRow, samplePushRow]).total_games = 3 ∧
    (summarize_ats_metrics [sampleWinRow, sampleLossRow, samplePushRow]).graded_games ≠ 0 ∧
    (summarize_ats_metrics [sampleWinRow, sampleLossRow, samplePushRow]).ats_accuracy =
      some (((summarize_ats_metrics [sampleWinRow, sampleLossRow, samplePushRow]).wins : ℚ) /
        ((summarize_ats_metrics [sampleWinRow, sampleLossRow, samplePushRow]).graded_games : ℚ)) := by
  have h := summarize_ats_metrics_partition [sampleWinRow, sampleLossRow, samplePushRow]
  have hg : (summarize_ats_metrics [sampleWinRow, sampleLossRow, samplePushRow]).graded_games = 2 := rfl
  refine ⟨by rw [h.2.1]; rfl, by rw [hg]; decide, h.2.2.2.1 (by rw [hg]; decide)⟩

/-- One loop iteration adds exactly the claim's per-player penalty, for
entries whose rank is not the degenerate `0` (ranks are 1-based). -/
lemma penalty_step_eq (penalty : ℚ) (inj : InjuryEntry) (h : inj.ppg_rank ≠ some 0) :
    penalty_step penalty inj = penalty + specPlayerPenalty inj := by
  unfold penalty_step specPlayerPenalty
  by_cases hs : lower_string inj.status = "out"
  · simp only [hs, ne_eq, not_true_eq_false, if_false, if_true]
    cases hp : inj.ppg with
    | none => ring
    | some ppg =>
      cases hr : inj.ppg_rank with
      | none => ring
      | some rank =>
        rw [hr] at h
        have hrank : rank ≠ 0 := fun h0 => h (by rw [h0])
        simp [hrank]
  · simp [hs]

/-- The penalty fold equals the claim's sum. -/
lemma foldl_penalty_eq (plist : List InjuryEntry) :
    ∀ a : ℚ, (∀ inj ∈ plist, inj.ppg_rank ≠ some 0) →
      plist.foldl penalty_step a = a + specTeamPenalty plist := by
  induction plist with
  | nil => intro a _; simp [specTeamPenalty]
  | cons inj rest ih =>
    intro a h
    simp only [List.foldl_cons]
    rw [penalty_step_eq a inj (h inj (List.mem_cons_self inj rest)),
      ih _ fun i hi => h i (List.mem_cons_of_mem _ hi)]
    simp only [specTeamPenalty, List.map_cons, List.sum_cons]
    ring

/-- Every rank multiplier is at least 1. -/
lemma RANK_MULTIPLIER_nonneg (rank : ℕ) : 0 ≤ RANK_MULTIPLIER rank := by
  unfold RANK_MULTIPLIER
  split_ifs <;> norm_num

/-- Every PPG-bucket multiplier is at least 1. -/
lemma ppg_multiplier_nonneg (ppg : ℚ) : 0 ≤ ppg_multiplier ppg := by
  unfold ppg_multiplier
  split_ifs <;> norm_num

/-- Per-player penalties are nonnegative whenever the PPG is. -/
lemma specPlayerPenalty_nonneg (inj : InjuryEntry)
    (h : ∀ q, inj.ppg = some q → 0 ≤ q) : 0 ≤ specPlayerPenalty inj := by
  unfold specPlayerPenalty
  split_ifs with hs
  · cases hp : inj.ppg with
    | none => exact le_refl 0
    | some ppg =>
      have hq : 0 ≤ ppg := h ppg hp
      have hbase : 0 ≤ ppg * POINTS_PER_PPG := mul_nonneg hq (by norm_num [POINTS_PER_PPG])
      cases inj.ppg_rank with
      | none => exact mul_nonneg hbase (ppg_multiplier_nonneg ppg)
      | some rank => exact mul_nonneg hbase (RANK_MULTIPLIER_nonneg rank)
  · exact le_refl 0

/-- Team penalties are nonnegative whenever every PPG is. -/
lemma specTeamPenalty_nonneg (plist : List InjuryEntry)
    (h : ∀ inj ∈ plist, ∀ q, inj.ppg = some q → 0 ≤ q) : 0 ≤ specTeamPenalty plist := by
  unfold specTeamPenalty
  refine List.sum_nonneg ?_
  intro x hx
  rcases List.mem_map.mp hx with ⟨inj, hmem, rfl⟩
  exact specPlayerPenalty_nonneg inj (h inj hmem)

/-- The adjustments dict read with `.get(team, 0.0)` yields exactly the
claim's team-penalty sum: the `penalty > 0` membership gate is harmless
because penalties are nonnegative. -/
lemma adjustments_lookup_eq (injuries : List (String × List InjuryEntry)) (team : String)
    (hrank : ∀ p ∈ injuries, ∀ inj ∈ p.2, inj.ppg_rank ≠ some 0)
    (hppg : ∀ p ∈ injuries, ∀ inj ∈ p.2, ∀ q, inj.ppg = some q → 0 ≤ q) :
    adjustments_lookup injuries team = specTeamPenalty (team_injuries injuries team) := by
  unfold adjustments_lookup team_injuries
  cases hf : injuries.find? (fun p => p.1 = team) with
  | none => simp [specTeamPenalty]
  | some p =>
    have hmem : p ∈ injuries := List.mem_of_find?_eq_some hf
    have heq : team_penalty p.2 = specTeamPenalty p.2 :=
      foldl_penalty_eq p.2 0 (hrank p hmem) |>.trans (zero_add _)
    have hnn : 0 ≤ specTeamPenalty p.2 := specTeamPenalty_nonneg p.2 (hppg p hmem)
    simp only
    rw [heq]
    split_ifs with hpos
    · rfl
    · exact le_antisymm (le_of_not_lt hpos) hnn |>.symm ▸ rfl

/-- C9: for valid reports (nonnegative PPG, 1-based ranks), the team
penalty is the sum over status-"out" players of `ppg × 0.15 × multiplier`
(rank table when the rank is known, PPG buckets otherwise), and
`apply_injury_adjustment` returns
`pred_away_margin − away_penalty + home_penalty`. -/
theorem apply_injury_adjustment_formula (injuries : List (String × List InjuryEntry))
    (away_team home_team : String) (pred_away_margin : ℚ)
    (hrank : ∀ p ∈ injuries, ∀ inj ∈ p.2, inj.ppg_rank ≠ some 0)
    (hppg : ∀ p ∈ injuries, ∀ inj ∈ p.2, ∀ q, inj.ppg = some q → 0 ≤ q) :
    apply_injury_adjustment away_team home_team pred_away_margin
      (adjustments_lookup injuries) =
    pred_away_margin - specTeamPenalty (team_injuries injuries away_team)
      + specTeamPenalty (team_injuries injuries home_team) := by
  unfold apply_injury_adjustment
  rw [adjustments_lookup_eq injuries away_team hrank hppg,
    adjustments_lookup_eq injuries home_team hrank hppg]

/-- Witness for C9 on the concrete `sampleInjuries` report. -/
theorem apply_injury_adjustment_formula_witness :
    (∀ p ∈ sampleInjuries, ∀ inj ∈ p.2, inj.ppg_rank ≠ some 0) ∧
    apply_injury_adjustment "BOS" "NYK" 3 (adjustments_lookup sampleInjuries) =
      3 - specTeamPenalty (team_injuries sampleInjuries "BOS")
        + specTeamPenalty (team_injuries sampleInjuries "NYK") := by
  have hrank : ∀ p ∈ sampleInjuries, ∀ inj ∈ p.2, inj.ppg_rank ≠ some 0 := by decide
  have hppg : ∀ p ∈ sampleInjuries, ∀ inj ∈ p.2, ∀ q, inj.ppg = some q → 0 ≤ q := by
    intro p hp inj hi q hq
    fin_cases hp <;> fin_cases hi <;> simp_all <;> rw [← hq] <;> norm_num
  exact ⟨hrank, apply_injury_adjustment_formula sampleInjuries "BOS" "NYK" 3 hrank hppg⟩

/-- Inverting a successful narrative computation. -/
lemma compute_narrative_stats_inv {g : PbpGame} {n : Narrative}
    (h : compute_narrative_stats g = some n) :
    ∃ d, g.scheduled = some d ∧ n = mk_narrative g d := by
  unfold compute_narrative_stats at h
  split at h
  · split at h
    · exact Option.noConfusion h
    · split at h
      · exact Option.noConfusion h
      · rename_i d heq hemp
        exact ⟨d, heq, (Option.some.inj h).symm⟩
  · exact Option.noConfusion h

/-- Blown-lead attribution of the built narrative, for games whose two
display names are distinct. -/
lemma mk_narrative_blown_side (g : PbpGame) (d : Int) (hne : g.home_name ≠ g.away_name) :
    ((mk_narrative g d).blown_lead_side = some "home" ↔
      ((mk_narrative g d).max_home_lead ≥ BLOWN_LEAD_THRESHOLD ∧
        g.home_points < g.away_points)) ∧
    ((mk_narrative g d).blown_lead_side = some "away" ↔
      ((mk_narrative g d).max_away_lead ≥ BLOWN_LEAD_THRESHOLD ∧
        g.away_points < g.home_points)) ∧
    (g.home_points = g.away_points → (mk_narrative g d).blown_lead_side = none) := by
  have hha : ("home" : String) ≠ "away" := by decide
  have hah : ("away" : String) ≠ "home" := by decide
  have hne' : g.away_name ≠ g.home_name := Ne.symm hne
  rcases lt_trichotomy g.home_points g.away_points with hm | hm | hm
  · have h1 : ¬(g.home_points - g.away_points > 0) := by omega
    have h2 : g.home_points - g.away_points < 0 := by omega
    have h3 : ¬(g.away_points < g.home_points) := by omega
    have h4 : g.home_points ≠ g.away_points := by omega
    by_cases hA : (scan_game g.periods).max_home_lead ≥ BLOWN_LEAD_THRESHOLD <;>
      refine ⟨?_, ?_, ?_⟩ <;>
        simp [mk_narrative, h1, h2, h3, h4, hm, hA, hne, hne', hha, hah]
  · have h1 : ¬(g.home_points - g.away_points > 0) := by omega
    have h2 : ¬(g.home_points - g.away_points < 0) := by omega
    have h3 : ¬(g.away_points < g.home_points) := by omega
    have h5 : ¬(g.home_points < g.away_points) := by omega
    refine ⟨?_, ?_, ?_⟩ <;> simp [mk_narrative, h1, h2, h3, h5, hm]
  · have h1 : g.home_points - g.away_points > 0 := by omega
    have h3 : ¬(g.home_points < g.away_points) := by omega
    have h4 : g.home_points ≠ g.away_points := by omega
    by_cases hB : (scan_game g.periods).max_away_lead ≥ BLOWN_LEAD_THRESHOLD <;>
      refine ⟨?_, ?_, ?_⟩ <;>
        simp [mk_narrative, h1, h3, h4, hm, hB, hne, hne', hha, hah]

/-- C6 counterexample: in `collisionGame` the two display names coincide,
the home side wins by 10, its own max lead is 12 and the away side never
led, yet the narrative attributes a blown lead to the "home" side — the
winner is flagged, refuting the claimed iff for every processed game. -/
theorem blown_lead_attribution_counterexample :
    collisionGame.away_points < collisionGame.home_points ∧
    (compute_narrative_stats collisionGame).map (fun n => n.blown_lead_side) =
      some (some "home") ∧
    (compute_narrative_stats collisionGame).map (fun n => n.max_away_lead) = some 0 := by
  decide

/-- C6 (amended): for every completed game whose two display names are
distinct, the blown-lead side is "home" iff home's max lead reached the
threshold and home lost, "away" iff away's max lead reached the threshold
and away lost, and a tied final flags nobody (hence the winner is never
flagged and at most one side is). -/
theorem blown_lead_attribution (g : PbpGame) (n : Narrative)
    (h : compute_narrative_stats g = some n) (hne : g.home_name ≠ g.away_name) :
    (n.blown_lead_side = some "home" ↔
      (n.max_home_lead ≥ BLOWN_LEAD_THRESHOLD ∧ g.home_points < g.away_points)) ∧
    (n.blown_lead_side = some "away" ↔
      (n.max_away_lead ≥ BLOWN_LEAD_THRESHOLD ∧ g.away_points < g.home_points)) ∧
    (g.home_points = g.away_points → n.blown_lead_side = none) := by
  obtain ⟨d, hd, rfl⟩ := compute_narrative_stats_inv h
  exact mk_narrative_blown_side g d hne

/-- Witness for C6 on `blownLeadGame`. -/
theorem blown_lead_attribution_witness :
    compute_narrative_stats blownLeadGame = some blownLeadNarrative ∧
    blownLeadNarrative.blown_lead_side = some "home" ∧
    blownLeadGame.home_points < blownLeadGame.away_points := by
  have hc : compute_narrative_stats blownLeadGame = some blownLeadNarrative := by decide
  have h := blown_lead_attribution blownLeadGame blownLeadNarrative hc (by decide)
  exact ⟨hc, h.1.mpr ⟨by decide, by decide⟩, by decide⟩

/-- C7 counterexample: in `comebackGame` the away side trailed by 15 at
worst (home's max lead is 15 ≥ 10) and won, and `compute_narrative_stats`
attributes the blown lead to the losing (home) side — not to nobody as
the claim states. -/
theorem comeback_no_blown_lead_counterexample :
    comebackGame.home_points < comebackGame.away_points ∧
    (compute_narrative_stats comebackGame).map (fun n => n.max_home_lead) = some 15 ∧
    (compute_narrative_stats comebackGame).map (fun n => n.blown_lead_side) =
      some (some "home") := by
  decide

/-- C7 (amended): when a team trails by 15 at its largest deficit (the
opponent's max lead is 15 ≥ 10) and that trailing team wins, the blown
lead is attributed to the losing side that had led — in either
orientation — and hence not to the winning side; in the away-led
orientation the home/away side marker names the losing side whenever the
two display names are distinct. -/
theorem comeback_flags_losing_side (g : PbpGame) (n : Narrative)
    (h : compute_narrative_stats g = some n) :
    (n.max_home_lead = 15 → g.home_points < g.away_points →
      n.blown_lead_team = some g.home_name ∧ n.blown_lead_side = some "home") ∧
    (n.max_away_lead = 15 → g.away_points < g.home_points →
      n.blown_lead_team = some g.away_name ∧
      (g.home_name ≠ g.away_name → n.blown_lead_side = some "away")) := by
  obtain ⟨d, hd, rfl⟩ := compute_narrative_stats_inv h
  constructor
  · intro hlead hwin
    have h15 : (scan_game g.periods).max_home_lead = 15 := hlead
    have hA : (scan_game g.periods).max_home_lead ≥ BLOWN_LEAD_THRESHOLD := by
      rw [h15]; decide
    have h1 : ¬(g.home_points - g.away_points > 0) := by omega
    have h2 : g.home_points - g.away_points < 0 := by omega
    by_cases hc : g.away_name = g.home_name <;>
      constructor <;>
        simp [mk_narrative, h1, h2, hA, hc]
  · intro hlead hwin
    have h15 : (scan_game g.periods).max_away_lead = 15 := hlead
    have hB : (scan_game g.periods).max_away_lead ≥ BLOWN_LEAD_THRESHOLD := by
      rw [h15]; decide
    have h1 : g.home_points - g.away_points > 0 := by omega
    refine ⟨?_, ?_⟩
    · simp [mk_narrative, h1, hB]
    · intro hne
      have hne' : g.away_name ≠ g.home_name := Ne.symm hne
      simp [mk_narrative, h1, hB, hne']

/-- Witness for C7 on `comebackGame` (home led and lost) and on
`mirrorComebackGame` (away led and lost). -/
theorem comeback_flags_losing_side_witness :
    compute_narrative_stats comebackGame = some comebackNarrative ∧
    comebackNarrative.blown_lead_team = some comebackGame.home_name ∧
    comebackNarrative.blown_lead_side = some "home" ∧
    compute_narrative_stats mirrorComebackGame = some mirrorComebackNarrative ∧
    mirrorComebackNarrative.blown_lead_team = some mirrorComebackGame.away_name ∧
    mirrorComebackNarrative.blown_lead_side = some "away" := by
  have hc1 : compute_narrative_stats comebackGame = some comebackNarrative := by decide
  have hc2 : compute_narrative_stats mirrorComebackGame = some mirrorComebackNarrative := by
    decide
  have h1 := (comeback_flags_losing_side comebackGame comebackNarrative hc1).1
    (by decide) (by decide)
  have h2 := (comeback_flags_losing_side mirrorComebackGame mirrorComebackNarrative hc2).2
    (by decide) (by decide)
  exact ⟨hc1, h1.1, h1.2, hc2, h2.1, h2.2 (by decide)⟩

/-- One scan step updates the running home max lead to the max with the
event's lead, for every scored event regardless of period or clock. -/
lemma scan_event_max_home (p : PbpPeriod) (s : NarrScan) (e : PbpEvent) :
    (scan_event p s e).max_home_lead =
      match eventLead e with
      | some l => max s.max_home_lead l
      | none => s.max_home_lead := by
  cases he : e.home_points with
  | none => cases ha : e.away_points <;> simp [scan_event, eventLead, he, ha]
  | some hp =>
    cases ha : e.away_points with
    | none => simp [scan_event, eventLead, he, ha]
    | some ap =>
      simp only [scan_event, eventLead, he, ha]
      by_cases hgt : hp - ap > s.max_home_lead
      · rw [if_pos hgt, max_eq_right hgt.le]
      · rw [if_neg hgt, max_eq_left (not_lt.mp hgt)]

/-- One scan step updates the running away max lead symmetrically. -/
lemma scan_event_max_away (p : PbpPeriod) (s : NarrScan) (e : PbpEvent) :
    (scan_event p s e).max_away_lead =
      match eventLead e with
      | some l => max s.max_away_lead (-l)
      | none => s.max_away_lead := by
  cases he : e.home_points with
  | none => cases ha : e.away_points <;> simp [scan_event, eventLead, he, ha]
  | some hp =>
    cases ha : e.away_points with
    | none => simp [scan_event, eventLead, he, ha]
    | some ap =>
      simp only [scan_event, eventLead, he, ha]
      by_cases hgt : -(hp - ap) > s.max_away_lead
      · rw [if_pos hgt, max_eq_right hgt.le]
      · rw [if_neg hgt, max_eq_left (not_lt.mp hgt)]

/-- The event fold of one period tracks the home max lead as a `max`-fold
over that period's scored leads. -/
lemma foldl_scan_max_home (p : PbpPeriod) (events : List PbpEvent) :
    ∀ s : NarrScan,
      (events.foldl (scan_event p) s).max_home_lead =
        (events.filterMap eventLead).foldl max s.max_home_lead := by
  induction events with
  | nil => intro s; simp
  | cons e rest ih =>
    intro s
    simp only [List.foldl_cons, List.filterMap_cons]
    cases hl : eventLead e with
    | none =>
      rw [ih (scan_event p s e), scan_event_max_home, hl]
    | some l =>
      simp only [List.foldl_cons]
      rw [ih (scan_event p s e), scan_event_max_home, hl]

/-- The event fold of one period tracks the away max lead as a `max`-fold
over the negated leads. -/
lemma foldl_scan_max_away (p : PbpPeriod) (events : List PbpEvent) :
    ∀ s : NarrScan,
      (events.foldl (scan_event p) s).max_away_lead =
        (events.filterMap eventLead).foldl (fun acc l => max acc (-l)) s.max_away_lead := by
  induction events with
  | nil => intro s; simp
  | cons e rest ih =>
    intro s
    simp only [List.foldl_cons, List.filterMap_cons]
    cases hl : eventLead e with
    | none =>
      rw [ih (scan_event p s e), scan_event_max_away, hl]
    | some l =>
      simp only [List.foldl_cons]
      rw [ih (scan_event p s e), scan_event_max_away, hl]

/-- The whole-game scan computes the home max lead as a `max`-fold over
all scored leads of all periods, overtime included. -/
lemma scan_game_max_home (periods : List PbpPeriod) :
    ∀ s : NarrScan,
      (periods.foldl scan_period s).max_home_lead =
        (allLeads periods).foldl max s.max_home_lead := by
  induction periods with
  | nil => intro s; simp [allLeads]
  | cons p rest ih =>
    intro s
    simp only [List.foldl_cons, allLeads, List.foldl_append]
    rw [ih (scan_period s p)]
    congr 1
    exact foldl_scan_max_home p p.events s

/-- The whole-game scan computes the away max lead as a `max`-fold over
all negated scored leads of all periods, overtime included. -/
lemma scan_game_max_away (periods : List PbpPeriod) :
    ∀ s : NarrScan,
      (periods.foldl scan_period s).max_away_lead =
        (allLeads periods).foldl (fun acc l => max acc (-l)) s.max_away_lead := by
  induction periods with
  | nil => intro s; simp [allLeads]
  | cons p rest ih =>
    intro s
    simp only [List.foldl_cons, allLeads, List.foldl_append]
    rw [ih (scan_period s p)]
    congr 1
    exact foldl_scan_max_away p p.events s

/-- Outside the clutch window a scan step leaves both clutch totals
untouched. -/
lemma scan_event_clutch_frozen (p : PbpPeriod) (s : NarrScan) (e : PbpEvent)
    (h : clutch_window p e = false) :
    (scan_event p s e).clutch_home_points = s.clutch_home_points ∧
    (scan_event p s e).clutch_away_points = s.clutch_away_points := by
  cases he : e.home_points <;> cases ha : e.away_points <;>
    simp [scan_event, he, ha, h]

/-- Events of a period that is not the regulation fourth quarter (in
particular every overtime period) are never in the clutch window. -/
lemma clutch_window_false_of_not_q4 (p : PbpPeriod) (e : PbpEvent)
    (h : ¬(p.type = "quarter" ∧ p.number = 4)) : clutch_window p e = false := by
  simp [clutch_window, h]

/-- Events whose parsed clock is above `CLUTCH_SECONDS` (or unparseable)
are never in the clutch window. -/
lemma clutch_window_false_of_late (p : PbpPeriod) (e : PbpEvent)
    (h : ∀ sec, parse_clock e.clock = some sec → CLUTCH_SECONDS < sec) :
    clutch_window p e = false := by
  unfold clutch_window
  split_ifs with hq
  · cases hc : parse_clock e.clock with
    | none => rfl
    | some sec => simpa using not_le.mpr (h sec hc)
  · rfl

/-- C8: in `compute_narrative_stats`, the max leads are `max`-folds over
every scored event of every period (overtime included), the clutch totals
are those of the scan, and a scan step can change a clutch total only for
an event of a period of type "quarter" number 4 whose parsed clock is at
most `CLUTCH_SECONDS` — so no overtime event ever contributes. -/
theorem narrative_scan_scope (g : PbpGame) (n : Narrative)
    (h : compute_narrative_stats g = some n) :
    n.max_home_lead = (allLeads g.periods).foldl max 0 ∧
    n.max_away_lead = ((allLeads g.periods).map (fun l => -l)).foldl max 0 ∧
    n.clutch_home_points = (scan_game g.periods).clutch_home_points ∧
    n.clutch_away_points = (scan_game g.periods).clutch_away_points ∧
    (∀ (p : PbpPeriod) (s : NarrScan) (e : PbpEvent),
      ¬(p.type = "quarter" ∧ p.number = 4) →
        (scan_event p s e).clutch_home_points = s.clutch_home_points ∧
        (scan_event p s e).clutch_away_points = s.clutch_away_points) ∧
    (∀ (p : PbpPeriod) (s : NarrScan) (e : PbpEvent),
      (∀ sec, parse_clock e.clock = some sec → CLUTCH_SECONDS < sec) →
        (scan_event p s e).clutch_home_points = s.clutch_home_points ∧
        (scan_event p s e).clutch_away_points = s.clutch_away_points) := by
  obtain ⟨d, hd, rfl⟩ := compute_narrative_stats_inv h
  refine ⟨?_, ?_, rfl, rfl, ?_, ?_⟩
  · show (scan_game g.periods).max_home_lead = _
    rw [scan_game, scan_game_max_home]
  · show (scan_game g.periods).max_away_lead = _
    rw [scan_game, scan_game_max_away, List.foldl_map]
  · exact fun p s e hq => scan_event_clutch_frozen p s e (clutch_window_false_of_not_q4 p e hq)
  · exact fun p s e hl => scan_event_clutch_frozen p s e (clutch_window_false_of_late p e hl)

/-- Witness for C8 on `comebackGame` (one regulation comeback with a
clutch fourth quarter). -/
theorem narrative_scan_scope_witness :
    compute_narrative_stats comebackGame = some comebackNarrative ∧
    comebackNarrative.max_home_lead = (allLeads comebackGame.periods).foldl max 0 ∧
    comebackNarrative.clutch_home_points = (scan_game comebackGame.periods).clutch_home_points := by
  have hc : compute_narrative_stats comebackGame = some comebackNarrative := by decide
  have h := narrative_scan_scope comebackGame comebackNarrative hc
  exact ⟨hc, h.1, h.2.2.1⟩

/-- C4: with half-life `H > 0`, the decayed-stats weight of the game `k`
games before the most recent one is `0.5 ^ (k / H)`, so the weight at
`k = 0` is `1` and the weight strictly decreases as `k` increases — for
every history, since the weight depends only on the games-ago count. -/
theorem game_weight_half_life_decay (H : ℝ) (hH : 0 < H) :
    gameWeight H 0 = 1 ∧ ∀ k l : ℕ, k < l → gameWeight H l < gameWeight H k := by
  constructor
  · unfold gameWeight
    rw [Nat.cast_zero, zero_div, Real.rpow_zero]
  · intro k l hkl
    unfold gameWeight
    apply Real.rpow_lt_rpow_of_exponent_gt (by norm_num) (by norm_num)
    exact (div_lt_div_iff_of_pos_right hH).mpr (by exact_mod_cast hkl)

/-- Witness for C4 at half-life 2: weight 1 at the most recent game and
strict decay from 1 game ago to 3 games ago. -/
theorem game_weight_half_life_decay_witness :
    (0 : ℝ) < 2 ∧ gameWeight 2 0 = 1 ∧ gameWeight 2 3 < gameWeight 2 1 := by
  have h := game_weight_half_life_decay 2 two_pos
  exact ⟨two_pos, h.1, h.2 1 3 (by norm_num)⟩

/-- Inserting a game dated on/after the cutoff anywhere in a list does
not change its strictly-before filter. -/
lemma filter_insert_late (l1 l2 : List GameResult) (x : GameResult) (d : Int)
    (hx : d ≤ x.game_date) :
    (l1 ++ x :: l2).filter (fun g => g.game_date < d) =
      (l1 ++ l2).filter (fun g => g.game_date < d) := by
  have hxf : ¬(x.game_date < d) := by omega
  simp [List.filter_append, List.filter_cons, hxf]

/-- The same, for narrative entries. -/
lemma filter_narr_insert_late (m1 m2 : List NarrativeEntry) (y : NarrativeEntry) (d : Int)
    (hy : d ≤ y.game_date) :
    (m1 ++ y :: m2).filter (fun e => e.game_date < d) =
      (m1 ++ m2).filter (fun e => e.game_date < d) := by
  have hyf : ¬(y.game_date < d) := by omega
  simp [List.filter_append, List.filter_cons, hyf]

/-- Inserting a late game into any team's history leaves every filtered
pre-cutoff history unchanged. -/
lemma filtered_games_update (history : String → List GameResult) (t : String)
    (x : GameResult) (l1 l2 : List GameResult) (d : Int)
    (hsplit : history t = l1 ++ l2) (hx : d ≤ x.game_date) (team : String) :
    filtered_games (Function.update history t (l1 ++ x :: l2)) team d =
      filtered_games history team d := by
  unfold filtered_games
  by_cases ht : team = t
  · subst ht
    rw [Function.update_same, hsplit, filter_insert_late l1 l2 x d hx]
  · rw [Function.update_noteq ht]

/-- Inserting a late entry into any team's narrative history leaves every
filtered pre-cutoff narrative history unchanged. -/
lemma filtered_narr_update (nh : String → List NarrativeEntry) (t : String)
    (y : NarrativeEntry) (m1 m2 : List NarrativeEntry) (d : Int)
    (hsplit : nh t = m1 ++ m2) (hy : d ≤ y.game_date) (team : String) :
    filtered_narr (some (Function.update nh t (m1 ++ y :: m2))) team d =
      filtered_narr (some nh) team d := by
  simp only [filtered_narr]
  by_cases ht : team = t
  · subst ht
    rw [Function.update_same, hsplit, filter_narr_insert_late m1 m2 y d hy]
  · rw [Function.update_noteq ht]

/-- `build_features_for_game` with a parseable date, unfolded to its
filtered inputs. -/
lemma build_features_scheduled_some (game : GameInfo)
    (history : String → List GameResult) (half_life : ℝ)
    (market_spread opening_spread : Option ℝ)
    (nh : Option (String → List NarrativeEntry)) (d : Int)
    (hd : game.scheduled = some d) :
    build_features_for_game game history half_life market_spread opening_spread nh =
      (if (filtered_games history game.home_id d).isEmpty ||
          (filtered_games history game.away_id d).isEmpty then BuildResult.empty
       else
         assemble_features game d (filtered_games history game.home_id d)
           (filtered_games history game.away_id d) half_life market_spread opening_spread
           (filtered_narr nh game.home_id d) (filtered_narr nh game.away_id d)) := by
  unfold build_features_for_game
  rw [hd]

/-- C2: the feature build for a matchup dated `d` is unchanged by
inserting, at any position of any team's game history or narrative
history, an additional entry dated on or after `d` — only entries
strictly before the query date influence the output. -/
theorem build_features_no_lookahead (game : GameInfo)
    (history : String → List GameResult) (half_life : ℝ)
    (market_spread opening_spread : Option ℝ)
    (narrative_history : Option (String → List NarrativeEntry))
    (t : String) (d : Int) (hd : game.scheduled = some d) :
    (∀ (x : GameResult) (l1 l2 : List GameResult),
      history t = l1 ++ l2 → d ≤ x.game_date →
      build_features_for_game game (Function.update history t (l1 ++ x :: l2))
          half_life market_spread opening_spread narrative_history =
        build_features_for_game game history half_life market_spread opening_spread
          narrative_history) ∧
    (∀ (nh : String → List NarrativeEntry) (y : NarrativeEntry)
        (m1 m2 : List NarrativeEntry),
      narrative_history = some nh → nh t = m1 ++ m2 → d ≤ y.game_date →
      build_features_for_game game history half_life market_spread opening_spread
          (some (Function.update nh t (m1 ++ y :: m2))) =
        build_features_for_game game history half_life market_spread opening_spread
          narrative_history) := by
  constructor
  · intro x l1 l2 hsplit hx
    rw [build_features_scheduled_some game (Function.update history t (l1 ++ x :: l2))
        half_life market_spread opening_spread narrative_history d hd,
      build_features_scheduled_some game history half_life market_spread opening_spread
        narrative_history d hd,
      filtered_games_update history t x l1 l2 d hsplit hx game.home_id,
      filtered_games_update history t x l1 l2 d hsplit hx game.away_id]
  · intro nh y m1 m2 hnh hsplit hy
    rw [hnh,
      build_features_scheduled_some game history half_life market_spread opening_spread
        (some (Function.update nh t (m1 ++ y :: m2))) d hd,
      build_features_scheduled_some game history half_life market_spread opening_spread
        (some nh) d hd,
      filtered_narr_update nh t y m1 m2 d hsplit hy game.home_id,
      filtered_narr_update nh t y m1 m2 d hsplit hy game.away_id]

/-- Witness for C2: inserting a game dated exactly at the query date into
the home side's history leaves the sample build unchanged. -/
theorem build_features_no_lookahead_witness :
    sampleHistory "H" = [] ++ [sampleHomeGame] ∧
    (10 : Int) ≤ lateGame.game_date ∧
    build_features_for_game sampleGameInfo
        (Function.update sampleHistory "H" ([] ++ lateGame :: [sampleHomeGame]))
        10 none none none =
      build_features_for_game sampleGameInfo sampleHistory 10 none none none := by
  have h1 : sampleHistory "H" = [] ++ [sampleHomeGame] := by decide
  have h2 : (10 : Int) ≤ lateGame.game_date := by decide
  have h := (build_features_no_lookahead sampleGameInfo sampleHistory 10 none none none
    "H" 10 rfl).1 lateGame [] [sampleHomeGame] h1 h2
  exact ⟨h1, h2, h⟩

/-- C3: when either side's filtered history is empty, the build returns
the `{}` sentinel for every optional-input combination, and the
`build_dataset` loop emits no row for that game. -/
theorem build_features_empty_history_sentinel (game : GameInfo)
    (history : String → List GameResult) (half_life : ℝ)
    (nh : Option (String → List NarrativeEntry)) (d : Int)
    (hd : game.scheduled = some d)
    (hemp : filtered_games history game.home_id d = [] ∨
      filtered_games history game.away_id d = []) :
    (∀ ms os : Option ℝ,
      build_features_for_game game history half_life ms os nh = BuildResult.empty) ∧
    (∀ (raw : RawGame) (ml : Option ℝ), raw.info = game →
      dataset_row raw history half_life nh ml = none) := by
  have hb : ∀ ms os : Option ℝ,
      build_features_for_game game history half_life ms os nh = BuildResult.empty := by
    intro ms os
    rw [build_features_scheduled_some game history half_life ms os nh d hd]
    rcases hemp with h | h <;> simp [h]
  refine ⟨hb, ?_⟩
  intro raw ml hinfo
  rcases raw with ⟨info, status, hp, ap⟩
  dsimp only at hinfo
  subst hinfo
  unfold dataset_row
  dsimp only
  cases hp <;> cases ap <;> simp [hd, hb]

/-- Witness for C3 on a query dated before any recorded game. -/
theorem build_features_empty_history_sentinel_witness :
    filtered_games sampleHistory "H" 0 = [] ∧
    build_features_for_game earlyGameInfo sampleHistory 10 none none none =
      BuildResult.empty ∧
    dataset_row ⟨earlyGameInfo, "closed", some 100, some 90⟩ sampleHistory 10 none none =
      none := by
  have hemp : filtered_games sampleHistory "H" 0 = [] := by decide
  have h := build_features_empty_history_sentinel earlyGameInfo sampleHistory 10 none 0
    rfl (Or.inl hemp)
  exact ⟨hemp, h.1 none none, h.2 ⟨earlyGameInfo, "closed", some 100, some 90⟩ none rfl⟩

/-- Market passthrough fields of a successfully assembled feature vector. -/
lemma assemble_features_ok_inv {game : GameInfo} {game_date : Int}
    {home_games away_games : List GameResult} {half_life : ℝ}
    {ms os : Option ℝ} {hn an : List NarrativeEntry} {fv : FeatureVec}
    (h : assemble_features game game_date home_games away_games half_life ms os hn an =
      BuildResult.ok fv) :
    fv.market_spread = ms.getD 0 ∧
    fv.line_move = passthrough_line_move os ms ∧
    ¬(os.isSome ∧ ms = none) := by
  unfold assemble_features at h
  by_cases hguard : (os.isSome && ms.isNone) = true
  · rw [if_pos hguard] at h
    exact BuildResult.noConfusion h
  · rw [if_neg hguard] at h
    injection h with h
    subst h
    refine ⟨?_, ?_, ?_⟩
    · cases ms <;> rfl
    · cases os <;> cases ms <;> rfl
    · rintro ⟨ho, hm⟩
      exact hguard (by rw [hm]; simp [ho])

/-- C10 (amended): every successful build passes the market spread through
(`0.0` when unknown) and sets `line_move = market − opening` when the
opening spread is supplied and `0.0` when it is unknown; the remaining
combination — opening spread supplied but market spread unknown — never
yields a successful build, because line 250 raises a `TypeError`. -/
theorem market_fields_passthrough (game : GameInfo)
    (history : String → List GameResult) (half_life : ℝ)
    (ms os : Option ℝ) (nh : Option (String → List NarrativeEntry)) (fv : FeatureVec)
    (h : build_features_for_game game history half_life ms os nh = BuildResult.ok fv) :
    (ms = none → fv.market_spread = 0) ∧
    (∀ m, ms = some m → fv.market_spread = m) ∧
    (os = none → fv.line_move = 0) ∧
    (∀ o m, os = some o → ms = some m → fv.line_move = m - o) ∧
    ¬(os.isSome ∧ ms = none) := by
  cases hd : game.scheduled with
  | none =>
    unfold build_features_for_game at h
    rw [hd] at h
    exact BuildResult.noConfusion h
  | some d =>
    rw [build_features_scheduled_some game history half_life ms os nh d hd] at h
    by_cases hemp2 : ((filtered_games history game.home_id d).isEmpty ||
        (filtered_games history game.away_id d).isEmpty) = true
    · rw [if_pos hemp2] at h
      exact BuildResult.noConfusion h
    · rw [if_neg hemp2] at h
      obtain ⟨h1, h2, h3⟩ := assemble_features_ok_inv h
      refine ⟨?_, ?_, ?_, ?_, h3⟩
      · intro hms; rw [h1, hms]; rfl
      · intro m hms; rw [h1, hms]; rfl
      · intro hos; rw [h2, hos]; cases ms <;> rfl
      · intro o m hos hms; rw [h2, hos, hms]; rfl

/-- C10 counterexample: with the market spread unknown and an opening
spread supplied, the build raises (`None - float`) instead of producing
any `market_spread`/`line_move` fields. -/
theorem line_move_missing_market_counterexample :
    build_features_for_game sampleGameInfo sampleHistory 10 none (some 3) none =
      BuildResult.err := rfl

/-- Witness for C10 on the sample matchup with market 4 and opening 3. -/
theorem market_fields_passthrough_witness :
    build_features_for_game sampleGameInfo sampleHistory 10 (some 4) (some 3) none =
      BuildResult.ok sampleFv ∧
    sampleFv.market_spread = 4 ∧ sampleFv.line_move = 4 - 3 := by
  have hb : build_features_for_game sampleGameInfo sampleHistory 10 (some 4) (some 3) none =
      BuildResult.ok sampleFv := rfl
  have h := market_fields_passthrough sampleGameInfo sampleHistory 10 (some 4) (some 3)
    none sampleFv hb
  exact ⟨hb, h.2.1 4 rfl, h.2.2.2.1 3 4 rfl rfl⟩

end Plopdiction
